import Mathlib

/-!
Verification of the insurance_nosql_pipeline data generator.

The development shallowly embeds the two source files:
  * `logger_utility.py` — the log lifecycle manager (`cleanup_old_logs`);
  * `Simulator.py` — configuration loading (`load_configuration`),
    record generation (`generate_insurance_data`), the simulation loop
    (`run_simulation`) and the `__main__` startup/shutdown flow.

Filesystem state is modelled as association lists of (filename, mtime);
times are integers (seconds).  Python exceptions are an explicit inductive
type, and logging is modelled as an explicit list of emitted messages.
-/

namespace InsurancePipeline

/-! ## Log lifecycle manager (logger_utility.py) -/

/-- The filesystem state seen by `cleanup_old_logs`: the entries of the log
directory and of the archive directory, each a list of (filename, mtime)
pairs.  mtimes are integer timestamps. -/
structure FSState where
  logDir : List (String × Int)
  archive : List (String × Int)
deriving DecidableEq, Repr

/-- Python's `str.endswith`, computed on the character list. -/
def strEndsWith (s suffix : String) : Bool :=
  List.isSuffixOf suffix.toList s.toList

/-- The test applied to each directory entry by the loop body of
`cleanup_old_logs` (logger_utility.py lines 60-75): the entry is moved
exactly when its name ends in ".log", it is not the active day's file,
and its mtime is strictly older than the cutoff. -/
def shouldArchive (activeName : String) (cutoff : Int) (e : String × Int) : Bool :=
  strEndsWith e.1 ".log" && !(e.1 == activeName) && decide (e.2 < cutoff)

/-- Function `cleanup_old_logs` (logger_utility.py lines 54-80): every qualifying
entry is moved from the log directory into the archive directory.
`shutil.move` overwrites an existing destination file of the same name,
so archive entries shadowed by a moved file are replaced. -/
def cleanup_old_logs (activeName : String) (cutoff : Int) (fs : FSState) : FSState :=
  let moved := fs.logDir.filter (shouldArchive activeName cutoff)
  let movedNames := moved.map Prod.fst
  { logDir := fs.logDir.filter (fun e => !(shouldArchive activeName cutoff e)),
    archive := fs.archive.filter (fun e => !(movedNames.contains e.1)) ++ moved }

/-- A concrete state for exercising the archival quantifier: the log
directory holds a single stale file whose name does not end in ".log". -/
def fsStaleTxt : FSState := FSState.mk [("old.txt", 0)] []

/-! ## Logging model (shared by all Simulator.py components) -/

/-- Severity levels of the Python logging module. -/
inductive LogLevel
  | debug
  | info
  | warning
  | error
  | critical
deriving DecidableEq, Repr

/-- One emitted log record: severity and message. -/
structure LogMsg where
  level : LogLevel
  msg : String
deriving DecidableEq, Repr

/-! ## Configuration loading (Simulator.py, load_configuration) -/

/-- The environment visible to `load_configuration`: the three variables it
reads, each possibly unset. -/
structure Env where
  mongo_uri : Option String
  mongo_db_name : Option String
  sleep_time : Option String
deriving DecidableEq, Repr

/-- Decimal digit-string parser used by `pyParseInt`. -/
def parseDigits : List Char → Option Nat
  | [] => none
  | cs =>
    if cs.all (fun c => c.isDigit)
    then some (cs.foldl (fun a c => a * 10 + (c.toNat - 48)) 0)
    else none

/-- Python's `int(str)` conversion: optional surrounding whitespace, an
optional sign, then a nonempty run of decimal digits; anything else raises
ValueError (here: `none`).  (Underscore separators and non-ASCII digits,
which Python also accepts, are not modelled.) -/
def pyParseInt (s : String) : Option Int :=
  let cs := ((s.toList.dropWhile Char.isWhitespace).reverse.dropWhile
    Char.isWhitespace).reverse
  match cs with
  | '+' :: ds => (parseDigits ds).map (fun n => (n : Int))
  | '-' :: ds => (parseDigits ds).map (fun n => -(n : Int))
  | ds => (parseDigits ds).map (fun n => (n : Int))

/-- Lines 28-33 of Simulator.py: `int(os.getenv("SLEEP_TIME", 5))` guarded
by `except ValueError`, which falls back to 5 and logs a warning.  Returns
the sleep value together with the logs emitted. -/
def sleep_time_of : Option String → Int × List LogMsg
  | none => (5, [])
  | some s =>
    match pyParseInt s with
    | some n => (n, [])
    | none => (5, [⟨.warning, "SLEEP_TIME in .env is not an integer. Defaulting to 5 seconds."⟩])

/-- The configuration triple returned by `load_configuration`. -/
structure Config where
  mongo_uri : String
  sleep_time : Int
  db_name : String
deriving DecidableEq, Repr

/-- Function `load_configuration` (Simulator.py lines 15-41): reads MONGO_URI,
MONGO_DB_NAME (default "insurance-pipeline") and SLEEP_TIME (default 5,
warning on unparseable values), and raises ValueError when MONGO_URI is
unset or empty (`if not mongo_uri`).  Returns the outcome and the emitted
logs. -/
def load_configuration (env : Env) : Except String Config × List LogMsg :=
  let db_name := env.mongo_db_name.getD "insurance-pipeline"
  let sw := sleep_time_of env.sleep_time
  match env.mongo_uri with
  | none =>
    (.error "MONGO_URI environment variable is not set.",
     sw.2 ++ [⟨.critical, "MONGO_URI environment variable is not set. Please check your .env file."⟩])
  | some uri =>
    if uri == "" then
      (.error "MONGO_URI environment variable is not set.",
       sw.2 ++ [⟨.critical, "MONGO_URI environment variable is not set. Please check your .env file."⟩])
    else
      (.ok ⟨uri, sw.1, db_name⟩,
       sw.2 ++ [⟨.info, "Configuration loaded successfully."⟩,
                ⟨.debug, "DB Name: " ++ db_name ++ ", Sleep Time: " ++ toString sw.1 ++ "s"⟩])

/-! ## Record generation (Simulator.py, generate_insurance_data) -/

/-- A customer document as built on lines 85-91. -/
structure Customer where
  customer_id : String
  name : String
  state : String
  policy_type : String
  timestamp : Nat
deriving DecidableEq, Repr

/-- A claim document as built on lines 93-101.  The amount is modelled as a
rational. -/
structure Claim where
  claim_id : String
  customer_id : String
  date : String
  amount : ℚ
  claim_type : String
  is_fraud : Bool
  status : String
deriving DecidableEq, Repr

/-- One draw of every random quantity consumed by a single call of
`generate_insurance_data`, in source order.  Range guarantees of the
library calls (`randint`, `uniform`, `random`) are carried as hypotheses of
the theorems that need them. -/
structure Rand where
  custNum : Nat
  fakeName : String
  fakeState : String
  policyChoice : Fin 3
  nowTs : Nat
  claimNum : Nat
  fakeDate : String
  uniformDraw : ℚ
  claimChoice : Fin 4
  fraudDraw : ℚ
deriving DecidableEq, Repr

/-- Integer nearest to `q` with ties going to the even integer — the
rounding mode of Python's `round`. -/
def roundHalfEven (q : ℚ) : ℤ :=
  let f := ⌊q⌋
  let r := q - (f : ℚ)
  if r < 1/2 then f
  else if 1/2 < r then f + 1
  else if f % 2 = 0 then f else f + 1

/-- Python's `round(x, 2)`. -/
def pyRound2 (q : ℚ) : ℚ :=
  ((roundHalfEven (q * 100) : ℤ) : ℚ) / 100

/-- Function `generate_insurance_data` (Simulator.py lines 76-104) as a function of
its random draws: builds the customer document and the claim document,
linking the claim back through the shared customer_id. -/
def generate_insurance_data (r : Rand) : Customer × Claim :=
  let customer_id := "CUST-" ++ toString r.custNum
  let customer : Customer :=
    ⟨customer_id, r.fakeName, r.fakeState,
     (["Auto", "Home", "Health"] : List String).get r.policyChoice, r.nowTs⟩
  let claim : Claim :=
    ⟨"CLM-" ++ toString r.claimNum, customer_id, r.fakeDate,
     pyRound2 r.uniformDraw,
     (["Accident", "Theft", "Fire", "Liability"] : List String).get r.claimChoice,
     decide (r.fraudDraw < 5/100), "Submitted"⟩
  (customer, claim)

/-! ## Simulation loop (Simulator.py, run_simulation) -/

/-- The Python exceptions relevant to the loop.  `keyboardInterrupt` is a
BaseException, not an Exception. -/
inductive PyExc
  | duplicateKeyError
  | writeConcernError
  | keyboardInterrupt
  | otherExc
deriving DecidableEq, Repr

/-- Whether `except Exception` catches the exception: everything modelled
except KeyboardInterrupt. -/
def isException : PyExc → Bool
  | .keyboardInterrupt => false
  | _ => true

/-- The except clauses guarding the insert block (lines 132-137), tried in
source order: the log emitted when the exception is caught, `none` when it
propagates (KeyboardInterrupt matches none of the three clauses). -/
def handle_insert_exc : PyExc → Option LogMsg
  | .duplicateKeyError =>
    some ⟨.warning, "Duplicate key error detected (likely customer ID collision). Skipping insertion."⟩
  | .writeConcernError =>
    some ⟨.error, "MongoDB Write Concern Error: Data insertion might not be fully confirmed."⟩
  | .keyboardInterrupt => none
  | .otherExc =>
    some ⟨.error, "Failed to insert data into MongoDB due to an unknown error."⟩

/-- The state of the two collections of the document store. -/
structure DB where
  customers : List Customer
  claims : List Claim
deriving DecidableEq, Repr

/-- The environment's behaviour during one tick: the random draws consumed
by generation, and the exception (if any) raised by each of the two
`insert_one` calls. -/
structure TickOracle where
  rand : Rand
  custExc : Option PyExc
  claimExc : Option PyExc
deriving DecidableEq, Repr

/-- The three success logs of a tick (lines 123-130): the insert
confirmation and the two `count_documents` reports. -/
def success_logs (c : Customer) (cl : Claim) (db : DB) : List LogMsg :=
  [⟨.info, "-> Inserted claim " ++ cl.claim_id ++ " for customer " ++
      c.customer_id ++ " (" ++ c.policy_type ++ ")"⟩,
   ⟨.info, "Customer Count == " ++ toString db.customers.length⟩,
   ⟨.info, "Claim Count == " ++ toString db.claims.length⟩]

/-- The guarded insert block of one tick (lines 117-137): insert the
customer, then the claim; any exception aborts the block at that point and
is offered to the except clauses.  Returns the emitted logs, the new store
state, and the exception escaping the block, if any. -/
def insert_block (db : DB) (c : Customer) (cl : Claim) (custExc claimExc : Option PyExc) :
    List LogMsg × DB × Option PyExc :=
  match custExc with
  | some e =>
    match handle_insert_exc e with
    | some l => ([l], db, none)
    | none => ([], db, some e)
  | none =>
    let db1 : DB := ⟨db.customers ++ [c], db.claims⟩
    match claimExc with
    | some e =>
      match handle_insert_exc e with
      | some l => ([l], db1, none)
      | none => ([], db1, some e)
    | none =>
      let db2 : DB := ⟨db1.customers, db1.claims ++ [cl]⟩
      (success_logs c cl db2, db2, none)

/-- The `while True` loop of run_simulation over a finite scenario: a list
of tick oracles followed by the exception `fin` raised at a tick boundary
(e.g. a KeyboardInterrupt delivered during `time.sleep`).  The loop only
terminates by an exception escaping it; returns the accumulated logs, the
final store state and that exception. -/
def run_loop : DB → List TickOracle → PyExc → List LogMsg × DB × PyExc
  | db, [], fin => ([], db, fin)
  | db, t :: ts, fin =>
    let g := generate_insurance_data t.rand
    let r := insert_block db g.1 g.2 t.custExc t.claimExc
    match r.2.2 with
    | some e => (r.1, r.2.1, e)
    | none =>
      let rest := run_loop r.2.1 ts fin
      (r.1 ++ rest.1, rest.2.1, rest.2.2)

/-- Function `run_simulation` (Simulator.py lines 106-146): the startup log, the
loop, and the two outer except clauses (`except KeyboardInterrupt`, then
`except Exception`).  Returns the logs, the final store state, and the
exception escaping the function (none when it returns normally). -/
def run_simulation (db : DB) (ticks : List TickOracle) (fin : PyExc) (sleep_time : Int) :
    List LogMsg × DB × Option PyExc :=
  let startLog : LogMsg :=
    ⟨.info, "Starting real-time simulation. Inserting data every " ++
      toString sleep_time ++ " seconds..."⟩
  match run_loop db ticks fin with
  | (logs, db', e) =>
    if e = .keyboardInterrupt then
      (startLog :: logs ++ [⟨.info, "Simulation stopped by user (Ctrl+C). Exiting."⟩], db', none)
    else if isException e then
      (startLog :: logs ++ [⟨.critical, "A critical error occurred during the simulation loop."⟩], db', none)
    else
      (startLog :: logs, db', some e)

/-! ## Startup/shutdown flow (Simulator.py, __main__) -/

/-- How the connection attempt of `setup_mongo_connection` turns out. -/
inductive ConnectOutcome
  | ok
  | connectionFailure
  | unexpectedError
deriving DecidableEq, Repr

/-- An observable event of the main flow: a log record, or the act of
constructing the MongoClient and issuing the liveness check. -/
inductive Event
  | log (m : LogMsg)
  | connectAttempt
deriving DecidableEq, Repr

/-- Function `setup_mongo_connection` (Simulator.py lines 43-74): logs the attempt,
performs the connection attempt, then either logs success and returns the
collection handles, or logs a critical message and re-raises.  The Bool
records whether an exception is re-raised. -/
def setup_mongo_connection (conn : ConnectOutcome) : List Event × Bool :=
  match conn with
  | .ok =>
    ([.log ⟨.info, "Attempting to connect to MongoDB Atlas..."⟩, .connectAttempt,
      .log ⟨.info, "Successfully connected to MongoDB Atlas."⟩], false)
  | .connectionFailure =>
    ([.log ⟨.info, "Attempting to connect to MongoDB Atlas..."⟩, .connectAttempt,
      .log ⟨.critical, "Connection error: Could not connect to MongoDB Atlas. Check your MONGO_URI and network status."⟩], true)
  | .unexpectedError =>
    ([.log ⟨.info, "Attempting to connect to MongoDB Atlas..."⟩, .connectAttempt,
      .log ⟨.critical, "An unexpected critical error occurred during MongoDB connection."⟩], true)

/-- The `__main__` block (Simulator.py lines 149-173): startup banner,
configuration, connection, loop, the three except clauses, and the
`finally` clause that always logs the termination banner. -/
def main_flow (env : Env) (conn : ConnectOutcome) (db : DB) (ticks : List TickOracle)
    (fin : PyExc) : List Event :=
  let startB : Event := .log ⟨.info, "--- Insurance Data Simulator Application Starting ---"⟩
  let termB : Event := .log ⟨.info, "--- Insurance Data Simulator Application Terminated ---"⟩
  match load_configuration env with
  | (.error _, cfgLogs) =>
    startB :: cfgLogs.map .log ++
      [.log ⟨.critical, "Application terminated due to Configuration Error."⟩, termB]
  | (.ok cfg, cfgLogs) =>
    let sc := setup_mongo_connection conn
    if sc.2 then
      match conn with
      | .connectionFailure =>
        startB :: cfgLogs.map .log ++ sc.1 ++
          [.log ⟨.critical, "Application terminated due to MongoDB connection failure."⟩, termB]
      | _ =>
        startB :: cfgLogs.map .log ++ sc.1 ++
          [.log ⟨.critical, "A fatal and unhandled error occurred during application setup."⟩, termB]
    else
      startB :: cfgLogs.map .log ++ sc.1 ++
        (run_simulation db ticks fin cfg.sleep_time).1.map .log ++ [termB]

/-- A fixed draw of the generator's random quantities, used by concrete
witnesses. -/
def rand0 : Rand :=
  ⟨123, "John Doe", "CA", 0, 0, 1234, "2025-06-01", 5000, 0, 1/2⟩

end InsurancePipeline

namespace InsurancePipeline

/-- C1: the active day's file is never moved to the archive, even when its
mtime is older than the cutoff: it stays in the log directory, and no
entry bearing its name newly appears in the archive. -/
theorem active_log_never_archived (fs : FSState) (cutoff m : Int) (activeName : String)
    (hmem : (activeName, m) ∈ fs.logDir) :
    (activeName, m) ∈ (cleanup_old_logs activeName cutoff fs).logDir ∧
    ∀ m', (activeName, m') ∈ (cleanup_old_logs activeName cutoff fs).archive →
      (activeName, m') ∈ fs.archive := by
  constructor
  · simp only [cleanup_old_logs, List.mem_filter]
    refine ⟨hmem, ?_⟩
    simp [shouldArchive]
  · intro m' hmem'
    simp only [cleanup_old_logs, List.mem_append, List.mem_filter, List.mem_map] at hmem'
    rcases hmem' with ⟨hA, _⟩ | hMoved
    · exact hA
    · exfalso
      have := hMoved.2
      simp [shouldArchive] at this

/-- Witness for C1: a concrete state whose active file is backdated far
before the cutoff, yet survives cleanup untouched. -/
theorem active_log_never_archived_witness :
    (("simulator_2026-10-12.log", (0 : Int)) ∈
      (FSState.mk [("simulator_2026-10-12.log", 0)] []).logDir) ∧
    (("simulator_2026-10-12.log", (0 : Int)) ∈
      (cleanup_old_logs "simulator_2026-10-12.log" 100
        (FSState.mk [("simulator_2026-10-12.log", 0)] [])).logDir ∧
    ∀ m', ("simulator_2026-10-12.log", m') ∈
        (cleanup_old_logs "simulator_2026-10-12.log" 100
          (FSState.mk [("simulator_2026-10-12.log", 0)] [])).archive →
      ("simulator_2026-10-12.log", m') ∈
        (FSState.mk [("simulator_2026-10-12.log", 0)] ([] : List (String × Int))).archive) :=
  ⟨by decide,
   active_log_never_archived (FSState.mk [("simulator_2026-10-12.log", 0)] []) 100 0
     "simulator_2026-10-12.log" (by decide)⟩

/-- C2 counterexample: "old.txt" is not the active day's filename and its
mtime 0 is older than the cutoff 100, yet `cleanup_old_logs` does not move
it into the archive (the loop only considers names ending in ".log"). -/
theorem stale_non_log_file_not_archived :
    ("old.txt", (0 : Int)) ∈ fsStaleTxt.logDir ∧
    "old.txt" ≠ "simulator_2026-10-12.log" ∧ (0 : Int) < 100 ∧
    ¬ ∃ m, ("old.txt", m) ∈
      (cleanup_old_logs "simulator_2026-10-12.log" 100 fsStaleTxt).archive := by
  refine ⟨by decide, by decide, by decide, ?_⟩
  rintro ⟨m, hm⟩
  have harch : (cleanup_old_logs "simulator_2026-10-12.log" 100 fsStaleTxt).archive = [] := by
    decide
  rw [harch] at hm
  exact List.not_mem_nil _ hm

/-- C2 amended: every file in the log directory whose name ends in ".log",
is not the active day's filename, and whose mtime is older than the cutoff
is moved into the archive directory. -/
theorem stale_log_file_archived (fs : FSState) (activeName name : String) (cutoff m : Int)
    (hlog : strEndsWith name ".log" = true) (hne : name ≠ activeName) (hold : m < cutoff)
    (hmem : (name, m) ∈ fs.logDir) :
    (name, m) ∈ (cleanup_old_logs activeName cutoff fs).archive ∧
    (name, m) ∉ (cleanup_old_logs activeName cutoff fs).logDir := by
  have hsa : shouldArchive activeName cutoff (name, m) = true := by
    simp [shouldArchive, hlog, hne, hold]
  constructor
  · simp only [cleanup_old_logs, List.mem_append]
    exact Or.inr (List.mem_filter.mpr ⟨hmem, hsa⟩)
  · simp only [cleanup_old_logs, List.mem_filter]
    rintro ⟨-, habs⟩
    rw [hsa] at habs
    exact Bool.false_ne_true habs

/-- Witness for the amended C2 at a concrete stale log file. -/
theorem stale_log_file_archived_witness :
    ("simulator_2020-01-01.log", (0 : Int)) ∈
      (cleanup_old_logs "simulator_2026-10-12.log" 100
        (FSState.mk [("simulator_2020-01-01.log", 0)] [])).archive ∧
    ("simulator_2020-01-01.log", (0 : Int)) ∉
      (cleanup_old_logs "simulator_2026-10-12.log" 100
        (FSState.mk [("simulator_2020-01-01.log", 0)] [])).logDir :=
  stale_log_file_archived (FSState.mk [("simulator_2020-01-01.log", 0)] [])
    "simulator_2026-10-12.log" "simulator_2020-01-01.log" 100 0
    (by decide) (by decide) (by decide) (by decide)

/-- When no entry of the log directory qualifies for archival,
`cleanup_old_logs` leaves the filesystem unchanged. -/
theorem cleanup_old_logs_noop (activeName : String) (cutoff : Int) (fs : FSState)
    (h : ∀ e ∈ fs.logDir, shouldArchive activeName cutoff e = false) :
    cleanup_old_logs activeName cutoff fs = fs := by
  obtain ⟨L, A⟩ := fs
  have hmoved : L.filter (shouldArchive activeName cutoff) = [] := by
    refine List.filter_eq_nil_iff.mpr ?_
    intro a ha
    simp [h a ha]
  simp only [cleanup_old_logs, hmoved, List.map_nil, List.append_nil, FSState.mk.injEq]
  constructor
  · refine List.filter_eq_self.mpr ?_
    intro a ha
    simp [h a ha]
  · refine List.filter_eq_self.mpr ?_
    intro a _
    rfl

/-- C3: `cleanup_old_logs` is idempotent — a second run at the same cutoff
changes neither directory's contents. -/
theorem cleanup_old_logs_idempotent (activeName : String) (cutoff : Int) (fs : FSState) :
    cleanup_old_logs activeName cutoff (cleanup_old_logs activeName cutoff fs) =
      cleanup_old_logs activeName cutoff fs := by
  refine cleanup_old_logs_noop activeName cutoff _ ?_
  intro e he
  have he' : e ∈ fs.logDir.filter (fun x => !(shouldArchive activeName cutoff x)) := he
  have := (List.mem_filter.mp he').2
  simpa using this

/-- C4 counterexample: SLEEP_TIME = "-3" is not a valid non-negative
integer, yet `load_configuration` accepts it as-is (sleep_time = -3, not
5) and logs no warning, because `int("-3")` succeeds in Python. -/
theorem negative_sleep_not_defaulted :
    (load_configuration ⟨some "mongodb://localhost", none, some "-3"⟩).1 =
      Except.ok ⟨"mongodb://localhost", -3, "insurance-pipeline"⟩ ∧
    ∀ l ∈ (load_configuration ⟨some "mongodb://localhost", none, some "-3"⟩).2,
      l.level ≠ LogLevel.warning := by
  constructor
  · rfl
  · decide

/-- C4 amended: whenever the supplied sleep-interval string is not a valid
integer literal, `load_configuration` uses the default 5 and logs a
warning; syntactically valid integers (negative ones included) are
accepted as-is. -/
theorem invalid_sleep_defaults_with_warning (env : Env) (s : String)
    (hs : env.sleep_time = some s) (hp : pyParseInt s = none) :
    (∀ cfg, (load_configuration env).1 = Except.ok cfg → cfg.sleep_time = 5) ∧
    (LogMsg.mk LogLevel.warning
        "SLEEP_TIME in .env is not an integer. Defaulting to 5 seconds.") ∈
      (load_configuration env).2 := by
  obtain ⟨u, d, st⟩ := env
  simp only at hs
  subst hs
  have hsw : sleep_time_of (some s) =
      (5, [⟨.warning, "SLEEP_TIME in .env is not an integer. Defaulting to 5 seconds."⟩]) := by
    simp [sleep_time_of, hp]
  cases u with
  | none =>
    refine ⟨?_, ?_⟩
    · intro cfg hcfg
      simp [load_configuration] at hcfg
    · simp [load_configuration, hsw]
  | some uri =>
    by_cases he : uri = ""
    · subst he
      refine ⟨?_, ?_⟩
      · intro cfg hcfg
        simp [load_configuration] at hcfg
      · simp [load_configuration, hsw]
    · refine ⟨?_, ?_⟩
      · intro cfg hcfg
        simp [load_configuration, hsw, he] at hcfg
        rw [← hcfg]
      · simp [load_configuration, hsw, he]

/-- Witness for the amended C4: SLEEP_TIME = "abc" yields sleep_time 5 and
a warning. -/
theorem invalid_sleep_defaults_with_warning_witness :
    (∀ cfg, (load_configuration ⟨some "mongodb://localhost", none, some "abc"⟩).1 =
        Except.ok cfg → cfg.sleep_time = 5) ∧
    (LogMsg.mk LogLevel.warning
        "SLEEP_TIME in .env is not an integer. Defaulting to 5 seconds.") ∈
      (load_configuration ⟨some "mongodb://localhost", none, some "abc"⟩).2 :=
  invalid_sleep_defaults_with_warning ⟨some "mongodb://localhost", none, some "abc"⟩ "abc"
    rfl (by decide)

/-- C5: when MONGO_URI is unset, `load_configuration` fails with the
configuration error, and the main flow performs no connection attempt on
the way to that failure. -/
theorem missing_uri_no_connect_attempt (env : Env) (h : env.mongo_uri = none) :
    (load_configuration env).1 = Except.error "MONGO_URI environment variable is not set." ∧
    ∀ conn db ticks fin, Event.connectAttempt ∉ main_flow env conn db ticks fin := by
  obtain ⟨u, d, st⟩ := env
  simp only at h
  subst h
  constructor
  · rfl
  · intro conn db ticks fin
    simp [main_flow, load_configuration]

/-- Witness for C5 at the empty environment. -/
theorem missing_uri_no_connect_attempt_witness :
    (load_configuration ⟨none, none, none⟩).1 =
      Except.error "MONGO_URI environment variable is not set." ∧
    ∀ conn db ticks fin,
      Event.connectAttempt ∉ main_flow ⟨none, none, none⟩ conn db ticks fin :=
  missing_uri_no_connect_attempt ⟨none, none, none⟩ rfl

/-- C8: in every generated pair, the claim's customer_id equals the paired
customer's customer_id. -/
theorem claim_linked_to_customer (r : Rand) :
    (generate_insurance_data r).2.customer_id = (generate_insurance_data r).1.customer_id :=
  rfl

/-- Rounding half to even never rounds below the floor. -/
theorem floor_le_roundHalfEven (q : ℚ) : ⌊q⌋ ≤ roundHalfEven q := by
  simp only [roundHalfEven]
  split_ifs <;> omega

/-- Rounding half to even never rounds above the floor plus one. -/
theorem roundHalfEven_le_floor_add_one (q : ℚ) : roundHalfEven q ≤ ⌊q⌋ + 1 := by
  simp only [roundHalfEven]
  split_ifs <;> omega

/-- Rounding half to even keeps values between integer bounds within those
bounds. -/
theorem roundHalfEven_bounds (a b : ℤ) (q : ℚ) (ha : (a : ℚ) ≤ q) (hb : q ≤ (b : ℚ)) :
    a ≤ roundHalfEven q ∧ roundHalfEven q ≤ b := by
  have hfa : a ≤ ⌊q⌋ := Int.le_floor.mpr ha
  have hfb : ⌊q⌋ ≤ b := by
    have h := Int.floor_le_floor hb
    simpa using h
  refine ⟨le_trans hfa (floor_le_roundHalfEven q), ?_⟩
  rcases lt_or_eq_of_le hfb with hlt | heq
  · exact le_trans (roundHalfEven_le_floor_add_one q) (by omega)
  · have hq : q ≤ (⌊q⌋ : ℚ) := by
      rw [heq]
      exact hb
    have hr : q - (⌊q⌋ : ℚ) < 1/2 := by linarith
    simp only [roundHalfEven]
    rw [if_pos hr]
    omega

/-- C9: every generated claim has an amount within [100, 20000]
representable with two decimal places, and a claim_type drawn from the
fixed four-element set. -/
theorem claim_amount_and_type_valid (r : Rand)
    (h1 : (100 : ℚ) ≤ r.uniformDraw) (h2 : r.uniformDraw ≤ 20000) :
    (100 : ℚ) ≤ (generate_insurance_data r).2.amount ∧
    (generate_insurance_data r).2.amount ≤ 20000 ∧
    (∃ n : ℤ, (generate_insurance_data r).2.amount * 100 = (n : ℚ)) ∧
    (generate_insurance_data r).2.claim_type ∈ ["Accident", "Theft", "Fire", "Liability"] := by
  have hamt : (generate_insurance_data r).2.amount = pyRound2 r.uniformDraw := rfl
  have hb := roundHalfEven_bounds 10000 2000000 (r.uniformDraw * 100)
    (by push_cast; linarith) (by push_cast; linarith)
  have h100 : (0 : ℚ) < 100 := by norm_num
  refine ⟨?_, ?_, ⟨roundHalfEven (r.uniformDraw * 100), ?_⟩, ?_⟩
  · rw [hamt]
    simp only [pyRound2]
    rw [le_div_iff₀ h100]
    have h' : ((10000 : ℤ) : ℚ) ≤ ((roundHalfEven (r.uniformDraw * 100) : ℤ) : ℚ) := by
      exact_mod_cast hb.1
    push_cast at h'
    linarith
  · rw [hamt]
    simp only [pyRound2]
    rw [div_le_iff₀ h100]
    have h' : ((roundHalfEven (r.uniformDraw * 100) : ℤ) : ℚ) ≤ ((2000000 : ℤ) : ℚ) := by
      exact_mod_cast hb.2
    push_cast at h'
    linarith
  · rw [hamt]
    simp only [pyRound2]
    rw [div_mul_cancel₀]
    norm_num
  · exact List.get_mem _ _ _

/-- Witness for C9 at a concrete draw with `uniform` result 5000. -/
theorem claim_amount_and_type_valid_witness :
    (100 : ℚ) ≤ (generate_insurance_data rand0).2.amount ∧
    (generate_insurance_data rand0).2.amount ≤ 20000 ∧
    (∃ n : ℤ, (generate_insurance_data rand0).2.amount * 100 = (n : ℚ)) ∧
    (generate_insurance_data rand0).2.claim_type ∈ ["Accident", "Theft", "Fire", "Liability"] :=
  claim_amount_and_type_valid rand0 (by norm_num [rand0]) (by norm_num [rand0])

/-- C6: a tick whose insert raises DuplicateKeyError logs the warning and
hands control to the remaining ticks — the exception never escapes the
tick. -/
theorem duplicate_key_tick_continues (db : DB) (t : TickOracle) (ts : List TickOracle)
    (fin : PyExc)
    (h : t.custExc = some .duplicateKeyError ∨
         (t.custExc = none ∧ t.claimExc = some .duplicateKeyError)) :
    ∃ db₁ : DB,
      run_loop db (t :: ts) fin =
        ((⟨.warning, "Duplicate key error detected (likely customer ID collision). Skipping insertion."⟩ : LogMsg) ::
            (run_loop db₁ ts fin).1,
         (run_loop db₁ ts fin).2.1, (run_loop db₁ ts fin).2.2) := by
  rcases h with h1 | ⟨h1, h2⟩
  · refine ⟨db, ?_⟩
    simp [run_loop, insert_block, h1, handle_insert_exc]
  · refine ⟨⟨db.customers ++ [(generate_insurance_data t.rand).1], db.claims⟩, ?_⟩
    simp [run_loop, insert_block, h1, h2, handle_insert_exc]

/-- Witness for C6: a one-tick scenario hitting a duplicate key on the
customer insert, then interrupted. -/
theorem duplicate_key_tick_continues_witness :
    ∃ db₁ : DB,
      run_loop ⟨[], []⟩ (⟨rand0, some .duplicateKeyError, none⟩ :: []) .keyboardInterrupt =
        ((⟨.warning, "Duplicate key error detected (likely customer ID collision). Skipping insertion."⟩ : LogMsg) ::
            (run_loop db₁ [] .keyboardInterrupt).1,
         (run_loop db₁ [] .keyboardInterrupt).2.1,
         (run_loop db₁ [] .keyboardInterrupt).2.2) :=
  duplicate_key_tick_continues ⟨[], []⟩ ⟨rand0, some .duplicateKeyError, none⟩ []
    .keyboardInterrupt (Or.inl rfl)

/-- The only exception that can escape the guarded insert block is
KeyboardInterrupt; the three except clauses catch everything else. -/
theorem insert_block_escape (db : DB) (c : Customer) (cl : Claim) (ce cle : Option PyExc)
    (e : PyExc) (h : (insert_block db c cl ce cle).2.2 = some e) :
    e = .keyboardInterrupt := by
  cases ce with
  | some ex =>
    cases ex <;> simp [insert_block, handle_insert_exc] at h
    exact h.symm
  | none =>
    cases cle with
    | some ex =>
      cases ex <;> simp [insert_block, handle_insert_exc] at h
      exact h.symm
    | none => simp [insert_block] at h

/-- When the scenario ends in a KeyboardInterrupt, the exception escaping
the while-loop is that KeyboardInterrupt, whatever the ticks did. -/
theorem run_loop_interrupt_escape (ticks : List TickOracle) (db : DB) :
    (run_loop db ticks .keyboardInterrupt).2.2 = .keyboardInterrupt := by
  induction ticks generalizing db with
  | nil => rfl
  | cons t ts ih =>
    simp only [run_loop]
    rcases hr : insert_block db (generate_insurance_data t.rand).1
      (generate_insurance_data t.rand).2 t.custExc t.claimExc with ⟨logs, db', oe⟩
    cases oe with
    | some e =>
      have he : e = .keyboardInterrupt := by
        refine insert_block_escape db (generate_insurance_data t.rand).1
          (generate_insurance_data t.rand).2 t.custExc t.claimExc e ?_
        rw [hr]
      subst he
      rfl
    | none =>
      simpa using ih db'

/-- C7: a KeyboardInterrupt ends the loop gracefully — run_simulation
returns normally (no escaping exception) after logging the termination
message — and the main flow logs the termination banner on every path. -/
theorem interrupt_graceful_and_banner_always :
    (∀ (db : DB) (ticks : List TickOracle) (sleep_time : Int),
      (run_simulation db ticks .keyboardInterrupt sleep_time).2.2 = none ∧
      (⟨.info, "Simulation stopped by user (Ctrl+C). Exiting."⟩ : LogMsg) ∈
        (run_simulation db ticks .keyboardInterrupt sleep_time).1) ∧
    (∀ env conn db ticks fin,
      Event.log ⟨.info, "--- Insurance Data Simulator Application Terminated ---"⟩ ∈
        main_flow env conn db ticks fin) := by
  constructor
  · intro db ticks sleep_time
    have he := run_loop_interrupt_escape ticks db
    rcases hl : run_loop db ticks .keyboardInterrupt with ⟨logs, db', e⟩
    rw [hl] at he
    simp only at he
    subst he
    constructor
    · simp [run_simulation, hl]
    · simp [run_simulation, hl]
  · intro env conn db ticks fin
    rcases hc : load_configuration env with ⟨res, cfgLogs⟩
    cases res with
    | error msg => simp [main_flow, hc]
    | ok cfg =>
      cases conn <;> simp [main_flow, hc, setup_mongo_connection]

/-- C10: when the customer insert succeeds and the claim insert then
raises an Exception, the tick's handler swallows it: the customer stays in
the customers collection, the claims collection is unchanged, one log is
emitted, and the loop proceeds to the remaining ticks from that state. -/
theorem customer_kept_when_claim_insert_fails (db : DB) (t : TickOracle)
    (ts : List TickOracle) (fin : PyExc) (e : PyExc)
    (h1 : t.custExc = none) (h2 : t.claimExc = some e) (h3 : isException e = true) :
    ∃ l : LogMsg,
      run_loop db (t :: ts) fin =
        (l :: (run_loop ⟨db.customers ++ [(generate_insurance_data t.rand).1], db.claims⟩ ts fin).1,
         (run_loop ⟨db.customers ++ [(generate_insurance_data t.rand).1], db.claims⟩ ts fin).2.1,
         (run_loop ⟨db.customers ++ [(generate_insurance_data t.rand).1], db.claims⟩ ts fin).2.2) := by
  cases e with
  | keyboardInterrupt => simp [isException] at h3
  | duplicateKeyError =>
    refine ⟨⟨.warning, "Duplicate key error detected (likely customer ID collision). Skipping insertion."⟩, ?_⟩
    simp [run_loop, insert_block, h1, h2, handle_insert_exc]
  | writeConcernError =>
    refine ⟨⟨.error, "MongoDB Write Concern Error: Data insertion might not be fully confirmed."⟩, ?_⟩
    simp [run_loop, insert_block, h1, h2, handle_insert_exc]
  | otherExc =>
    refine ⟨⟨.error, "Failed to insert data into MongoDB due to an unknown error."⟩, ?_⟩
    simp [run_loop, insert_block, h1, h2, handle_insert_exc]

/-- Witness for C10: starting from an empty store, after the failing tick
the customers collection holds exactly the generated customer and the
claims collection is still empty. -/
theorem customer_kept_when_claim_insert_fails_witness :
    ∃ l : LogMsg,
      run_loop ⟨[], []⟩ (⟨rand0, none, some .otherExc⟩ :: []) .keyboardInterrupt =
        (l :: (run_loop ⟨[] ++ [(generate_insurance_data rand0).1], []⟩ [] .keyboardInterrupt).1,
         (run_loop ⟨[] ++ [(generate_insurance_data rand0).1], []⟩ [] .keyboardInterrupt).2.1,
         (run_loop ⟨[] ++ [(generate_insurance_data rand0).1], []⟩ [] .keyboardInterrupt).2.2) :=
  customer_kept_when_claim_insert_fails ⟨[], []⟩ ⟨rand0, none, some .otherExc⟩ []
    .keyboardInterrupt .otherExc rfl rfl rfl

end InsurancePipeline
